import Mathlib

/-!
# Vajont Dam Visualizer — verification of the disaster-sequence core

Shallow embedding, over exact rationals, of the numeric and state-machine
core of the Vajont Dam disaster visualization: the configuration constants
(`config.js`), the easing library (`js/utils.js`, `AnimationUtils.js`), the
parameter model (water height, stability category, saturation zone, clay
stress from `GeologyModel.js` and the controllers), the disaster-sequence
orchestrator's start/reset/tick logic (`DisasterController.js`), and the
particle kinematics helpers (`AnimationUtils.js`, `GeologyModel.js`).
-/

namespace Vajont

/-! ## Configuration constants (src/unnamed/part_001, `config.js`) -/

def CONFIG_water_initialHeight : ℚ := 40
def CONFIG_water_maxHeight : ℚ := 90
def CONFIG_water_minHeight : ℚ := 5
def CONFIG_dam_height : ℚ := 90
def CONFIG_dam_width : ℚ := 150
def CONFIG_animation_cameraTransition : ℚ := 1000
def CONFIG_animation_waterRiseTime : ℚ := 5000
def CONFIG_animation_landslideTime : ℚ := 3000
def CONFIG_animation_tsunamiTime : ℚ := 4000
def CONFIG_stability_critical : ℚ := 80
def CONFIG_stability_veryLow : ℚ := 65
def CONFIG_stability_low : ℚ := 50
def CONFIG_stability_moderate : ℚ := 35
def CONFIG_stability_good : ℚ := 20

/-! ## Easing library (src/js/utils.js lines 448–471; identical copy in
src/unnamed/part_003 lines 324–367, `AnimationUtils.js`) -/

def easeInOutQuad (t : ℚ) : ℚ :=
  if t < 1/2 then 2 * t * t else 1 - (-2 * t + 2) ^ 2 / 2

def easeInOutCubic (t : ℚ) : ℚ :=
  if t < 1/2 then 4 * t * t * t else 1 - (-2 * t + 2) ^ 3 / 2

def easeOutQuad (t : ℚ) : ℚ := 1 - (1 - t) * (1 - t)

def easeOutCubic (t : ℚ) : ℚ := 1 - (1 - t) ^ 3

/-- Overshoot constant `c1 = 1.70158` of `easeInOutBack`. -/
def backC1 : ℚ := 170158 / 100000

/-- Overshoot constant `c2 = c1 * 1.525` of `easeInOutBack`. -/
def backC2 : ℚ := backC1 * (1525 / 1000)

def easeInOutBack (t : ℚ) : ℚ :=
  if t < 1/2 then
    ((2 * t) ^ 2 * ((backC2 + 1) * 2 * t - backC2)) / 2
  else
    ((2 * t - 2) ^ 2 * ((backC2 + 1) * (t * 2 - 2) + backC2) + 2) / 2

/-- `THREE.MathUtils.lerp` / `utils.js` `lerp`: `a + (b - a) * t`. -/
def lerp (a b t : ℚ) : ℚ := a + (b - a) * t

/-! Spec-side easing formulas (spec.md §4.1), written from the spec's words,
to be compared with the source-side definitions above. -/

def spec_easeInOutQuad (t : ℚ) : ℚ :=
  if t < 1/2 then 2 * t ^ 2 else 1 - (-2 * t + 2) ^ 2 / 2

def spec_easeInOutCubic (t : ℚ) : ℚ :=
  if t < 1/2 then 4 * t ^ 3 else 1 - (-2 * t + 2) ^ 3 / 2

def spec_easeOutQuad (t : ℚ) : ℚ := 1 - (1 - t) ^ 2

def spec_easeOutCubic (t : ℚ) : ℚ := 1 - (1 - t) ^ 3

def spec_easeInOutBack (t : ℚ) : ℚ :=
  if t < 1/2 then
    ((2 * t) ^ 2 * ((backC2 + 1) * (2 * t) - backC2)) / 2
  else
    ((2 * t - 2) ^ 2 * ((backC2 + 1) * (2 * t - 2) + backC2) + 2) / 2

/-! ## Parameter model -/

/-- `WaterModel.updateWaterLevel` (src/js/models/GeologyModel.js lines
779–791): the pure height computation
`(sliderValue / 100) * (maxHeight - minHeight) + minHeight`. -/
def waterHeightOfLevel (sliderValue : ℚ) : ℚ :=
  sliderValue / 100 * (CONFIG_water_maxHeight - CONFIG_water_minHeight) +
    CONFIG_water_minHeight

/-- Stability tiers of the UI indicator. -/
inductive StabilityCategory
  | critical | veryLow | low | moderate | good | excellent
  deriving DecidableEq, Repr

/-- Result of the stability-indicator update: discrete category plus the
hex display color written to the DOM. -/
structure StabilityInfo where
  category : StabilityCategory
  color : String
  deriving DecidableEq, Repr

/-- `DisasterController._updateStabilityStatus` (src/js/controllers/
DisasterController.js lines 459–488) and `UIView.updateStabilityIndicator`
(src/js/views/UIViewTimp.js lines 91–124): same descending strict-threshold
ladder, thresholds from `CONFIG.stability`. -/
def stabilityOf (value : ℚ) : StabilityInfo :=
  if value > CONFIG_stability_critical then ⟨.critical, "#e53935"⟩
  else if value > CONFIG_stability_veryLow then ⟨.veryLow, "#ff5252"⟩
  else if value > CONFIG_stability_low then ⟨.low, "#ff9800"⟩
  else if value > CONFIG_stability_moderate then ⟨.moderate, "#ffc107"⟩
  else if value > CONFIG_stability_good then ⟨.good, "#cddc39"⟩
  else ⟨.excellent, "#4caf50"⟩

/-- Clay-layer stress tiers (`GeologyModel.updateClayLayer` branch taken). -/
inductive ClayStress
  | criticalStress | highStress | normal
  deriving DecidableEq, Repr

/-- The branch `GeologyModel.updateClayLayer` (src/js/models/GeologyModel.js
lines 523–541) takes for a given water level: `> CONFIG.stability.veryLow`
→ critical stress (red), `> CONFIG.stability.low` → high stress (orange),
otherwise normal. -/
def clayStressOf (waterLevel : ℚ) : ClayStress :=
  if waterLevel > CONFIG_stability_veryLow then .criticalStress
  else if waterLevel > CONFIG_stability_low then .highStress
  else .normal

/-- Material state of the clay layer mesh. -/
structure ClayLayerState where
  color : ℕ
  emissive : ℕ
  emissiveIntensity : ℚ
  deriving DecidableEq, Repr

/-- `GeologyModel.updateClayLayer` (src/js/models/GeologyModel.js lines
523–541) as a state transformer on the clay material; the `normal` branch
sets the base color and zeroes the intensity but leaves the emissive color
field untouched, exactly as the source does. -/
def updateClayLayer (waterLevel : ℚ) (m : ClayLayerState) : ClayLayerState :=
  if waterLevel > CONFIG_stability_veryLow then
    { color := 0xe53935, emissive := 0xff5252, emissiveIntensity := 3/10 }
  else if waterLevel > CONFIG_stability_low then
    { color := 0xff9800, emissive := 0xff9800, emissiveIntensity := 2/10 }
  else
    { m with color := 0xA09077, emissiveIntensity := 0 }

/-- Visual state of the saturated-zone mesh. -/
structure SaturatedZoneState where
  visible : Bool
  opacity : ℚ
  verticalScale : ℚ
  deriving DecidableEq, Repr

/-- `GeologyModel.updateSaturationZone` (src/js/models/GeologyModel.js lines
547–568) as a state transformer: above the threshold 30 the zone becomes
visible with opacity `0.3 + s*0.5` and vertical scale `0.6 + s*0.5` where
`s = (level-30)/(100-30)`; at or below it the zone is hidden and its
material fields are left as they were. -/
def updateSaturationZone (waterLevel : ℚ) (z : SaturatedZoneState) :
    SaturatedZoneState :=
  if waterLevel > 30 then
    let saturationScale := (waterLevel - 30) / (100 - 30)
    { visible := true
      opacity := 3/10 + saturationScale * (5/10)
      verticalScale := 6/10 + saturationScale * (5/10) }
  else
    { z with visible := false }

/-! ## Scene-level data -/

/-- Componentwise 3-vector over exact rationals (`THREE.Vector3` /
`THREE.Euler` as used by the controller). -/
structure Vec3 where
  x : ℚ
  y : ℚ
  z : ℚ
  deriving DecidableEq, Repr

/-- The four named camera presets of `CONFIG.cameraPositions`. -/
inductive CameraView
  | aerial | dam | slope | geology
  deriving DecidableEq, Repr

/-- A scene-graph object as the cleanup sweep sees it: an identity plus the
`userData.isAnimationObject` tag. -/
structure SceneObject where
  objId : ℕ
  isAnimationObject : Bool
  deriving DecidableEq, Repr

/-- The orchestrator-visible simulation state: the `DisasterController`'s
`animating` flag, the UI slider and timeline, the water mesh height, the
derived stability/saturation/clay visuals, the landslide block transform
with its recorded `userData` original pose, the active camera preset, and
the scene-graph objects the cleanup sweep traverses. The `has*` fields
model the source's existence guards (`if (this.uiElements.waterLevelSlider)`,
`if (this.models.geology.landslideBlock)`, `if (this.models.geology.clayLayer)`). -/
structure SimState where
  animating : Bool
  controlsEnabled : Bool
  timelineVisible : Bool
  timelinePct : ℚ
  hasSlider : Bool
  sliderValue : ℚ
  waterMeshY : ℚ
  stability : StabilityInfo
  saturation : SaturatedZoneState
  hasClay : Bool
  clay : ClayLayerState
  hasBlock : Bool
  blockVisible : Bool
  blockPos : Vec3
  blockRot : Vec3
  blockOriginalPos : Option Vec3
  blockOriginalRot : Option Vec3
  cameraView : CameraView
  sceneObjects : List SceneObject
  deriving DecidableEq, Repr

/-! ## Disaster-sequence orchestrator (src/js/controllers/DisasterController.js) -/

/-- The synchronous entry step of `DisasterController.playDisasterSequence`
(lines 76–89): if `animating` is already set the call returns immediately
(no state change); otherwise it sets the flag, disables the controls, shows
the timeline and zeroes the progress bar. -/
def playDisasterSequence (s : SimState) : SimState :=
  if s.animating then s
  else
    { s with animating := true
             controlsEnabled := false
             timelineVisible := true
             timelinePct := 0 }

/-- `DisasterController.resetSimulation` (lines 129–180), in source order:
clear `animating`; if the slider exists set it to 30 and recompute water
height, stability and saturation for 30; if the landslide block exists make
it visible and copy back its recorded original position/rotation when they
were saved; if the clay layer exists recompute it for 30; hide the
timeline; set the camera to the `aerial` preset; drop every scene object
tagged `isAnimationObject` (`cleanupAnimationObjects`,
src/unnamed/part_003 lines 142–154); re-enable the controls. -/
def resetSimulation (s : SimState) : SimState :=
  let s1 := { s with animating := false }
  let s2 := if s1.hasSlider then
      { s1 with sliderValue := 30
                waterMeshY := waterHeightOfLevel 30
                stability := stabilityOf 30
                saturation := updateSaturationZone 30 s1.saturation }
    else s1
  let s3 := if s2.hasBlock then
      { s2 with blockVisible := true
                blockPos := s2.blockOriginalPos.getD s2.blockPos
                blockRot := s2.blockOriginalRot.getD s2.blockRot }
    else s2
  let s4 := if s3.hasClay then { s3 with clay := updateClayLayer 30 s3.clay } else s3
  let s5 := { s4 with timelineVisible := false }
  let s6 := { s5 with cameraView := CameraView.aerial }
  let s7 := { s6 with
    sceneObjects := s6.sceneObjects.filter fun o => !o.isAnimationObject }
  { s7 with controlsEnabled := true }

/-- `SimulationController._onWaterLevelChange` (src/js/controllers/
SimulationController.js lines 278–292), the direct UI slider path while
idle: update the water model, the stability indicator
(`UIView.updateStabilityIndicator`), the saturation zone and the clay
layer for the new value. -/
def onWaterLevelChange (value : ℚ) (s : SimState) : SimState :=
  let s1 := { s with waterMeshY := waterHeightOfLevel value }
  let s2 := { s1 with stability := stabilityOf value }
  let s3 := { s2 with saturation := updateSaturationZone value s2.saturation }
  { s3 with clay := updateClayLayer value s3.clay }

/-- `Math.round` of JavaScript: round half away from zero upward,
`⌊q + 1/2⌋`. -/
def jsRound (q : ℚ) : ℚ := (⌊q + 1/2⌋ : ℤ)

/-- One tick of `DisasterController._animateWaterLevel` (lines 207–239):
when `animating` has been cleared the tick resolves without touching state;
otherwise it writes `progress * 40` percent to the timeline bar, computes
the eased, rounded current level, and (when the slider exists) applies it
to the slider, the water mesh, stability, saturation and clay. -/
def waterRiseTick (startLevel endLevel progress : ℚ) (s : SimState) : SimState :=
  if !s.animating then s
  else
    let s1 := { s with timelinePct := progress * 40 }
    let easedProgress := easeInOutQuad progress
    let currentLevel := jsRound (startLevel + (endLevel - startLevel) * easedProgress)
    if s1.hasSlider then
      { s1 with sliderValue := currentLevel
                waterMeshY := waterHeightOfLevel currentLevel
                stability := stabilityOf currentLevel
                saturation := updateSaturationZone currentLevel s1.saturation
                clay := updateClayLayer currentLevel s1.clay }
    else s1

/-- The fixed endpoints of the landslide animation, captured once at phase
start (`_animateLandslide` lines 256–268): the end position is the start
position displaced by `(+30, -40, +40)` and the end rotation tilts `x` by
`+0.2` and twists `z` by `-0.1`. -/
structure LandslideAnim where
  startPos : Vec3
  startRot : Vec3
  deriving DecidableEq, Repr

def LandslideAnim.endPos (a : LandslideAnim) : Vec3 :=
  ⟨a.startPos.x + 30, a.startPos.y - 40, a.startPos.z + 40⟩

def LandslideAnim.endRot (a : LandslideAnim) : Vec3 :=
  ⟨a.startRot.x + 2/10, a.startRot.y, a.startRot.z - 1/10⟩

/-- One tick of `DisasterController._animateLandslide` (lines 284–325):
when `animating` has been cleared the tick resolves untouched; otherwise it
writes `40 + progress * 30` percent, eases the progress with
`easeInOutBack`, lerps the block position between the captured endpoints
(`lerpVectors`) and lerps the `x` and `z` rotation components (the `y`
component is never written). -/
def landslideTick (a : LandslideAnim) (progress : ℚ) (s : SimState) : SimState :=
  if !s.animating then s
  else
    let s1 := { s with timelinePct := 40 + progress * 30 }
    let eased := easeInOutBack progress
    { s1 with
      blockPos := ⟨lerp a.startPos.x a.endPos.x eased,
                   lerp a.startPos.y a.endPos.y eased,
                   lerp a.startPos.z a.endPos.z eased⟩
      blockRot := ⟨lerp a.startRot.x a.endRot.x eased,
                   s1.blockRot.y,
                   lerp a.startRot.z a.endRot.z eased⟩ }

/-- Outputs of one tick of `DisasterController._animateTsunami`
(lines 370–420). -/
structure TsunamiTickOut where
  timelinePctOut : ℚ
  waveScaleX : ℚ
  waveScaleY : ℚ
  waveScaleZ : ℚ
  waveZ : ℚ
  waterY : ℚ
  burst : Bool
  deriving DecidableEq, Repr

/-- One tick of `DisasterController._animateTsunami` (lines 370–420):
writes `70 + progress * 30` percent; scales the wave to
`easeOutCubic(progress) * 5` horizontally and `1 + progress * 2`
vertically; moves it to `z = -140 + easeOutQuad(progress) * 180`; once
`progress > 0.7` (and the water mesh exists) sets the water height to
`lerp(waterHeight, CONFIG.dam.height + 10, (progress - 0.7) / 0.3)` where
`waterHeight` was captured at phase start, and calls
`createWaterOvertopping` exactly when additionally
`progress > 0.8 && progress < 0.85`. -/
def tsunamiTick (waterHeight prevWaterY : ℚ) (hasWaterMesh : Bool)
    (progress : ℚ) : TsunamiTickOut :=
  let waveScale := easeOutCubic progress * 5
  { timelinePctOut := 70 + progress * 30
    waveScaleX := waveScale
    waveScaleY := 1 + progress * 2
    waveScaleZ := waveScale
    waveZ := -140 + easeOutQuad progress * 180
    waterY :=
      if progress > 7/10 ∧ hasWaterMesh then
        lerp waterHeight (CONFIG_dam_height + 10) ((progress - 7/10) / (3/10))
      else prevWaterY
    burst :=
      if (progress > 7/10 ∧ hasWaterMesh) ∧
          (progress > 8/10 ∧ progress < 85/100) then true else false }

/-- Whether a tick at the given progress triggers an overtopping burst
(with the water mesh present). -/
def tsunamiBurstTriggered (progress : ℚ) : Bool :=
  (tsunamiTick 0 0 true progress).burst

/-- Number of overtopping bursts a tsunami phase whose ticks run at the
given progress values triggers. -/
def tsunamiBurstCount (ps : List ℚ) : ℕ :=
  (ps.filter tsunamiBurstTriggered).length

/-- The three phases weighted into the timeline bar. -/
inductive SeqPhase
  | waterRise | landslide | tsunami
  deriving DecidableEq, Repr

def SeqPhase.idx : SeqPhase → ℕ
  | .waterRise => 0
  | .landslide => 1
  | .tsunami => 2

/-- The timeline percentage each phase's tick writes for a given phase
progress: `progress * 40` (line 218), `40 + progress * 30` (line 295),
`70 + progress * 30` (line 381). -/
def timelinePctOf : SeqPhase → ℚ → ℚ
  | .waterRise, p => p * 40
  | .landslide, p => 40 + p * 30
  | .tsunami, p => 70 + p * 30

/-! ## Particle kinematics (src/unnamed/part_003 `AnimationUtils.js`;
src/js/models/GeologyModel.js `updateOvertoppingParticles`) -/

/-- A simulated particle: position plus velocity. -/
structure Particle where
  pos : Vec3
  vel : Vec3
  deriving DecidableEq, Repr

/-- Per-particle step of `WaterModel.updateOvertoppingParticles`
(GeologyModel.js lines 1023–1041): position += velocity; then
`velocity.y -= 0.1 * deltaTime * 60`; particles whose updated `y` falls
below −20 are teleported back to the stored dam-crest height with a fresh
random downward `y` velocity `-r * 2 - 1` (`r` stands for the
`Math.random()` draw). -/
def overtoppingParticleStep (damHeight dt r : ℚ) (pt : Particle) : Particle :=
  let px := pt.pos.x + pt.vel.x
  let py := pt.pos.y + pt.vel.y
  let pz := pt.pos.z + pt.vel.z
  let vy := pt.vel.y - 1/10 * dt * 60
  if py < -20 then
    { pos := ⟨px, damHeight, pz⟩, vel := ⟨pt.vel.x, -r * 2 - 1, pt.vel.z⟩ }
  else
    { pos := ⟨px, py, pz⟩, vel := ⟨pt.vel.x, vy, pt.vel.z⟩ }

/-- Per-particle step of `updateDebrisParticles` (src/unnamed/part_003
lines 74–90): position += velocity; `velocity.y -= 0.1`; particles whose
updated `y` falls below 0 are clamped to the ground and their (already
gravity-updated) `y` velocity is scaled by `-0.4` (bounce). -/
def debrisParticleStep (pt : Particle) : Particle :=
  let px := pt.pos.x + pt.vel.x
  let py := pt.pos.y + pt.vel.y
  let pz := pt.pos.z + pt.vel.z
  let vy := pt.vel.y - 1/10
  if py < 0 then
    { pos := ⟨px, 0, pz⟩, vel := ⟨pt.vel.x, vy * (-4/10), pt.vel.z⟩ }
  else
    { pos := ⟨px, py, pz⟩, vel := ⟨pt.vel.x, vy, pt.vel.z⟩ }

/-- Per-particle step of `updateSplashParticles` (src/unnamed/part_003
lines 117–127): position += velocity; `velocity.y -= 0.1`; no bounce. -/
def splashParticleStep (pt : Particle) : Particle :=
  { pos := ⟨pt.pos.x + pt.vel.x, pt.pos.y + pt.vel.y, pt.pos.z + pt.vel.z⟩
    vel := ⟨pt.vel.x, pt.vel.y - 1/10, pt.vel.z⟩ }

/-- A homogeneous particle system: its particles plus the shared material
opacity. -/
structure ParticleSet where
  parts : List Particle
  opacity : ℚ
  deriving DecidableEq, Repr

/-- `updateDebrisParticles` (src/unnamed/part_003 lines 66–99) on one
tagged system: step every particle, then set the material opacity to
`max(0, 0.8 - progress * 0.8)` — a function of the owning phase's
progress, not of particle age. -/
def updateDebrisParticles (progress : ℚ) (sys : ParticleSet) : ParticleSet :=
  { parts := sys.parts.map debrisParticleStep
    opacity := max 0 (8/10 - progress * (8/10)) }

/-- `updateSplashParticles` (src/unnamed/part_003 lines 106–136) on one
matching system: step every particle, then set the material opacity to
`max(0, 0.7 - progress * 0.7)`. -/
def updateSplashParticles (progress : ℚ) (sys : ParticleSet) : ParticleSet :=
  { parts := sys.parts.map splashParticleStep
    opacity := max 0 (7/10 - progress * (7/10)) }

/-- `WaterModel.updateOvertoppingParticles` (GeologyModel.js lines
1016–1046): step every particle (the `rand` stream supplies each
particle's `Math.random()` draw); the material opacity is never written. -/
def updateOvertoppingParticles (damHeight dt : ℚ) (rand : ℕ → ℚ)
    (sys : ParticleSet) : ParticleSet :=
  { parts := sys.parts.mapIdx fun i pt => overtoppingParticleStep damHeight dt (rand i) pt
    opacity := sys.opacity }

/-- A concrete mid-sequence state (slope camera, run in progress, recorded
original block pose, one tagged animation object in the scene), used to
evaluate the theorems on explicit inputs. -/
def demoState : SimState :=
  { animating := true
    controlsEnabled := false
    timelineVisible := true
    timelinePct := 55
    hasSlider := true
    sliderValue := 60
    waterMeshY := waterHeightOfLevel 60
    stability := stabilityOf 60
    saturation := ⟨true, 1/2, 4/5⟩
    hasClay := true
    clay := ⟨0xff9800, 0xff9800, 2/10⟩
    hasBlock := true
    blockVisible := true
    blockPos := ⟨-105, 40, -120⟩
    blockRot := ⟨1/10, 0, -1/20⟩
    blockOriginalPos := some ⟨-120, 60, -140⟩
    blockOriginalRot := some ⟨0, 0, 0⟩
    cameraView := CameraView.slope
    sceneObjects := [⟨0, false⟩, ⟨1, true⟩, ⟨2, false⟩] }

/-- C1 — Single-flight execution: whenever the orchestrator's `animating`
flag is already set, a further call to the `playDisasterSequence` entry
point returns the state unchanged, so at most one sequence run is ever
active. -/
theorem c1_single_flight (s : SimState) (h : s.animating = true) :
    playDisasterSequence s = s := by
  simp [playDisasterSequence, h]

/-- Witness for C1 at the concrete in-progress state. -/
theorem c1_single_flight_witness : playDisasterSequence demoState = demoState :=
  c1_single_flight demoState rfl

/-- C2 — Reset contract: from any state (mid-landslide included), when the
slider, block and clay layer exist and the block's original pose was
recorded, `resetSimulation` sets the level to exactly 30 with stability,
saturation and clay recomputed for 30, snaps the block to exactly the
recorded original position and rotation (also when reset runs right after
an arbitrary landslide tick, i.e. never an interpolated midpoint), restores
the aerial camera preset, hides the timeline, removes every scene object
tagged `isAnimationObject`, and clears the run flag. -/
theorem c2_reset_contract (s : SimState) (p r : Vec3)
    (hs : s.hasSlider = true) (hb : s.hasBlock = true) (hc : s.hasClay = true)
    (hp : s.blockOriginalPos = some p) (hr : s.blockOriginalRot = some r) :
    (resetSimulation s).sliderValue = 30 ∧
    (resetSimulation s).waterMeshY = waterHeightOfLevel 30 ∧
    (resetSimulation s).stability = stabilityOf 30 ∧
    (resetSimulation s).saturation = updateSaturationZone 30 s.saturation ∧
    (resetSimulation s).clay = updateClayLayer 30 s.clay ∧
    (resetSimulation s).blockPos = p ∧
    (resetSimulation s).blockRot = r ∧
    (resetSimulation s).cameraView = CameraView.aerial ∧
    (resetSimulation s).timelineVisible = false ∧
    (resetSimulation s).animating = false ∧
    (∀ o ∈ (resetSimulation s).sceneObjects, o.isAnimationObject = false) ∧
    (∀ a q, s.animating = true →
      (resetSimulation (landslideTick a q s)).blockPos = p ∧
      (resetSimulation (landslideTick a q s)).blockRot = r) := by
  have hmain : ∀ t : SimState, t.hasSlider = true → t.hasBlock = true →
      t.hasClay = true → t.blockOriginalPos = some p → t.blockOriginalRot = some r →
      (resetSimulation t).sliderValue = 30 ∧
      (resetSimulation t).waterMeshY = waterHeightOfLevel 30 ∧
      (resetSimulation t).stability = stabilityOf 30 ∧
      (resetSimulation t).saturation = updateSaturationZone 30 t.saturation ∧
      (resetSimulation t).clay = updateClayLayer 30 t.clay ∧
      (resetSimulation t).blockPos = p ∧
      (resetSimulation t).blockRot = r ∧
      (resetSimulation t).cameraView = CameraView.aerial ∧
      (resetSimulation t).timelineVisible = false ∧
      (resetSimulation t).animating = false := by
    intro t ths thb thc thp thr
    simp [resetSimulation, ths, thb, thc, thp, thr]
  obtain ⟨m1, m2, m3, m4, m5, m6, m7, m8, m9, m10⟩ := hmain s hs hb hc hp hr
  refine ⟨m1, m2, m3, m4, m5, m6, m7, m8, m9, m10, ?_, ?_⟩
  · intro o ho
    simp only [resetSimulation, List.mem_filter] at ho
    simpa using ho.2
  · intro a q hanim
    have := hmain (landslideTick a q s)
      (by simp [landslideTick, hanim, hs])
      (by simp [landslideTick, hanim, hb])
      (by simp [landslideTick, hanim, hc])
      (by simp [landslideTick, hanim, hp])
      (by simp [landslideTick, hanim, hr])
    exact ⟨this.2.2.2.2.2.1, this.2.2.2.2.2.2.1⟩

/-- Witness for C2 at the concrete mid-sequence state. -/
theorem c2_reset_contract_witness :
    (resetSimulation demoState).sliderValue = 30 ∧
    (resetSimulation demoState).blockPos = ⟨-120, 60, -140⟩ ∧
    (resetSimulation demoState).blockRot = ⟨0, 0, 0⟩ ∧
    (resetSimulation demoState).cameraView = CameraView.aerial := by
  have h := c2_reset_contract demoState ⟨-120, 60, -140⟩ ⟨0, 0, 0⟩ rfl rfl rfl rfl rfl
  exact ⟨h.1, h.2.2.2.2.2.1, h.2.2.2.2.2.2.1, h.2.2.2.2.2.2.2.1⟩

/-- C5 — Stability category mapping: the indicator evaluates its thresholds
in descending order with strict comparisons — critical(#e53935) for
level > 80, veryLow(#ff5252) for 65 < level ≤ 80, low(#ff9800) for
50 < level ≤ 65, moderate(#ffc107) for 35 < level ≤ 50, good(#cddc39) for
20 < level ≤ 35, excellent(#4caf50) for level ≤ 20 — and in particular
`stabilityOf 81` is critical, `stabilityOf 80` is veryLow (upper boundary
exclusive) and `stabilityOf 0` is excellent. -/
theorem c5_stability_mapping (value : ℚ) :
    (value > 80 → stabilityOf value = ⟨.critical, "#e53935"⟩) ∧
    (65 < value → value ≤ 80 → stabilityOf value = ⟨.veryLow, "#ff5252"⟩) ∧
    (50 < value → value ≤ 65 → stabilityOf value = ⟨.low, "#ff9800"⟩) ∧
    (35 < value → value ≤ 50 → stabilityOf value = ⟨.moderate, "#ffc107"⟩) ∧
    (20 < value → value ≤ 35 → stabilityOf value = ⟨.good, "#cddc39"⟩) ∧
    (value ≤ 20 → stabilityOf value = ⟨.excellent, "#4caf50"⟩) ∧
    stabilityOf 81 = ⟨.critical, "#e53935"⟩ ∧
    stabilityOf 80 = ⟨.veryLow, "#ff5252"⟩ ∧
    stabilityOf 0 = ⟨.excellent, "#4caf50"⟩ := by
  unfold stabilityOf CONFIG_stability_critical CONFIG_stability_veryLow
    CONFIG_stability_low CONFIG_stability_moderate CONFIG_stability_good
  refine ⟨fun h1 => ?_, fun h1 h2 => ?_, fun h1 h2 => ?_, fun h1 h2 => ?_,
    fun h1 h2 => ?_, fun h1 => ?_, ?_, ?_, ?_⟩ <;>
    split_ifs <;> first | rfl | (exfalso; linarith)

/-- Witness for C5, evaluating the boundary inputs. -/
theorem c5_stability_mapping_witness :
    stabilityOf 66 = ⟨.veryLow, "#ff5252"⟩ ∧ stabilityOf 80 = ⟨.veryLow, "#ff5252"⟩ :=
  ⟨(c5_stability_mapping 66).2.1 (by norm_num) (by norm_num),
   (c5_stability_mapping 80).2.2.2.2.2.2.2.1⟩

/-- C7 — Water-height mapping: the computed height is
`minHeight + (level/100)·(maxHeight − minHeight)` with `minHeight = 5` and
`maxHeight = 90`, giving 5 at level 0 and 90 at level 100, and it is
monotonically non-decreasing in the level. -/
theorem c7_water_height_mapping (l1 l2 : ℚ) (h : l1 ≤ l2) :
    waterHeightOfLevel l1 =
      CONFIG_water_minHeight +
        l1 / 100 * (CONFIG_water_maxHeight - CONFIG_water_minHeight) ∧
    waterHeightOfLevel 0 = 5 ∧
    waterHeightOfLevel 100 = 90 ∧
    waterHeightOfLevel l1 ≤ waterHeightOfLevel l2 := by
  refine ⟨by unfold waterHeightOfLevel; ring, ?_, ?_, ?_⟩
  · norm_num [waterHeightOfLevel, CONFIG_water_minHeight, CONFIG_water_maxHeight]
  · norm_num [waterHeightOfLevel, CONFIG_water_minHeight, CONFIG_water_maxHeight]
  · unfold waterHeightOfLevel CONFIG_water_minHeight CONFIG_water_maxHeight
    linarith

/-- Witness for C7 at levels 30 and 85. -/
theorem c7_water_height_mapping_witness :
    waterHeightOfLevel 30 ≤ waterHeightOfLevel 85 :=
  (c7_water_height_mapping 30 85 (by norm_num)).2.2.2

/-- C3 — Timeline-progress partition: a water-rise tick at phase progress
`p` reports exactly `40·p` percent, a landslide tick `40 + 30·p`, a tsunami
tick `70 + 30·p`; the reported value is 0, 40, 70, 100 at the phase
boundaries and is monotonically non-decreasing along a completed run
(across any two phase/progress points in run order). -/
theorem c3_timeline_partition (s : SimState) (a : LandslideAnim)
    (startLevel endLevel waterHeight prevWaterY p : ℚ) (hasMesh : Bool)
    (ph1 ph2 : SeqPhase) (p1 p2 : ℚ)
    (hanim : s.animating = true)
    (h11 : p1 ≤ 1) (h20 : 0 ≤ p2)
    (hord : ph1.idx < ph2.idx ∨ (ph1 = ph2 ∧ p1 ≤ p2)) :
    (waterRiseTick startLevel endLevel p s).timelinePct = timelinePctOf .waterRise p ∧
    (landslideTick a p s).timelinePct = timelinePctOf .landslide p ∧
    (tsunamiTick waterHeight prevWaterY hasMesh p).timelinePctOut =
      timelinePctOf .tsunami p ∧
    timelinePctOf .waterRise 0 = 0 ∧
    timelinePctOf .waterRise 1 = 40 ∧
    timelinePctOf .landslide 0 = 40 ∧
    timelinePctOf .landslide 1 = 70 ∧
    timelinePctOf .tsunami 0 = 70 ∧
    timelinePctOf .tsunami 1 = 100 ∧
    timelinePctOf ph1 p1 ≤ timelinePctOf ph2 p2 := by
  refine ⟨?_, ?_, ?_, by norm_num [timelinePctOf], by norm_num [timelinePctOf],
    by norm_num [timelinePctOf], by norm_num [timelinePctOf],
    by norm_num [timelinePctOf], by norm_num [timelinePctOf], ?_⟩
  · cases hsl : s.hasSlider <;>
      simp [waterRiseTick, hanim, hsl, timelinePctOf]
  · simp only [landslideTick, hanim, Bool.not_true, timelinePctOf]
    simp
  · simp [tsunamiTick, timelinePctOf]
  · rcases hord with hlt | ⟨heq, hle⟩
    · cases ph1 <;> cases ph2 <;>
        simp only [SeqPhase.idx, timelinePctOf] at hlt ⊢ <;>
        first | omega | linarith
    · subst heq
      cases ph1 <;> simp only [timelinePctOf] <;> linarith

/-- Witness for C3 on a concrete in-progress state and concrete phase
points. -/
theorem c3_timeline_partition_witness :
    (landslideTick ⟨⟨-120, 60, -140⟩, ⟨0, 0, 0⟩⟩ (1/2) demoState).timelinePct =
      timelinePctOf .landslide (1/2) ∧
    timelinePctOf .waterRise (1/2) ≤ timelinePctOf .landslide (3/4) := by
  have h := c3_timeline_partition demoState ⟨⟨-120, 60, -140⟩, ⟨0, 0, 0⟩⟩
    30 85 40 40 (1/2) true .waterRise .landslide (1/2) (3/4) rfl
    (by norm_num) (by norm_num) (Or.inl (by norm_num [SeqPhase.idx]))
  exact ⟨h.2.1, h.2.2.2.2.2.2.2.2.2⟩

/-- C8 — Saturation-zone mapping: at or below the threshold 30 the zone is
hidden (in particular at exactly 30); above 30 it is visible with
`scaleFactor = (level−30)/(100−30)`, which stays in `[0,1]` for levels up
to 100, opacity `0.3 + 0.5·scaleFactor` and vertical scale
`0.6 + 0.5·scaleFactor`; at level 100 the scale factor is 1, the opacity
0.8 and the vertical scale 1.1. -/
theorem c8_saturation_mapping (level : ℚ) (z : SaturatedZoneState)
    (h100 : level ≤ 100) :
    (level ≤ 30 → (updateSaturationZone level z).visible = false) ∧
    (updateSaturationZone 30 z).visible = false ∧
    (30 < level →
      (updateSaturationZone level z).visible = true ∧
      (updateSaturationZone level z).opacity =
        3/10 + (level - 30) / (100 - 30) * (5/10) ∧
      (updateSaturationZone level z).verticalScale =
        6/10 + (level - 30) / (100 - 30) * (5/10) ∧
      0 ≤ (level - 30) / (100 - 30) ∧ (level - 30) / (100 - 30) ≤ 1) ∧
    (100 - 30 : ℚ) ≠ 0 ∧
    ((100 : ℚ) - 30) / (100 - 30) = 1 ∧
    (updateSaturationZone 100 z).visible = true ∧
    (updateSaturationZone 100 z).opacity = 8/10 ∧
    (updateSaturationZone 100 z).verticalScale = 11/10 := by
  refine ⟨?_, ?_, ?_, by norm_num, by norm_num, ?_, ?_, ?_⟩
  · intro hle
    simp [updateSaturationZone, not_lt.mpr hle]
  · simp [updateSaturationZone]
  · intro hgt
    refine ⟨?_, ?_, ?_, ?_, ?_⟩
    · simp [updateSaturationZone, hgt]
    · simp [updateSaturationZone, hgt]
    · simp [updateSaturationZone, hgt]
    · exact div_nonneg (by linarith) (by norm_num)
    · rw [div_le_one (by norm_num)]
      linarith
  · norm_num [updateSaturationZone]
  · norm_num [updateSaturationZone]
  · norm_num [updateSaturationZone]

/-- Witness for C8 at levels 30, 65 and 100. -/
theorem c8_saturation_mapping_witness :
    (updateSaturationZone 30 ⟨true, 1/2, 4/5⟩).visible = false ∧
    (updateSaturationZone 65 ⟨true, 1/2, 4/5⟩).opacity =
      3/10 + (65 - 30) / (100 - 30) * (5/10) ∧
    (updateSaturationZone 100 ⟨true, 1/2, 4/5⟩).opacity = 8/10 := by
  have h65 := c8_saturation_mapping 65 ⟨true, 1/2, 4/5⟩ (by norm_num)
  exact ⟨h65.2.1, (h65.2.2.1 (by norm_num)).2.1, h65.2.2.2.2.2.2.1⟩

/-- C9 — Easing library fidelity: each source easing function agrees with
the spec's exact formula at every input (with `c1 = 1.70158` and
`c2 = c1·1.525` for the back ease), and every one of them satisfies
`f 0 = 0` and `f 1 = 1` exactly. -/
theorem c9_easing_fidelity (t : ℚ) :
    easeOutQuad t = spec_easeOutQuad t ∧
    easeOutCubic t = spec_easeOutCubic t ∧
    easeInOutQuad t = spec_easeInOutQuad t ∧
    easeInOutCubic t = spec_easeInOutCubic t ∧
    easeInOutBack t = spec_easeInOutBack t ∧
    backC1 = 170158 / 100000 ∧ backC2 = backC1 * (1525 / 1000) ∧
    easeOutQuad 0 = 0 ∧ easeOutQuad 1 = 1 ∧
    easeOutCubic 0 = 0 ∧ easeOutCubic 1 = 1 ∧
    easeInOutQuad 0 = 0 ∧ easeInOutQuad 1 = 1 ∧
    easeInOutCubic 0 = 0 ∧ easeInOutCubic 1 = 1 ∧
    easeInOutBack 0 = 0 ∧ easeInOutBack 1 = 1 := by
  refine ⟨?_, rfl, ?_, ?_, ?_, rfl, rfl,
    by norm_num [easeOutQuad], by norm_num [easeOutQuad],
    by norm_num [easeOutCubic], by norm_num [easeOutCubic],
    by norm_num [easeInOutQuad], by norm_num [easeInOutQuad],
    by norm_num [easeInOutCubic], by norm_num [easeInOutCubic],
    by norm_num [easeInOutBack, backC2, backC1],
    by norm_num [easeInOutBack, backC2, backC1]⟩
  · unfold easeOutQuad spec_easeOutQuad; ring
  · unfold easeInOutQuad spec_easeInOutQuad
    split_ifs <;> ring
  · unfold easeInOutCubic spec_easeInOutCubic
    split_ifs <;> ring
  · unfold easeInOutBack spec_easeInOutBack
    split_ifs <;> ring

/-- C4 counterexample — the tsunami tick calls `createWaterOvertopping` on
every tick whose progress lies in (0.8, 0.85), so a run whose ticks sample
progresses 0.81 and 0.82 (two successive frames of the 4000 ms phase)
triggers two overtopping bursts, not exactly one. -/
theorem c4_tsunami_counterexample :
    tsunamiBurstCount [81/100, 82/100] = 2 ∧
    tsunamiBurstCount [81/100, 82/100] ≠ 1 := by
  constructor <;>
    norm_num [tsunamiBurstCount, tsunamiBurstTriggered, tsunamiTick,
      List.filter_cons, List.filter_nil]

/-- C4 amended — Tsunami phase behaviour: for every tick with progress `p`
the wave's horizontal scale is `easeOutCubic p · 5`, its z position is
`-140 + easeOutQuad p · 180`; for `p > 0.7` the water height is
`lerp(waterHeight, damHeight+10, (p−0.7)/0.3)`, reaching `damHeight+10`
exactly at `p = 1`; an overtopping burst fires exactly on the ticks whose
progress lies in the open window (0.8, 0.85) — one burst per such tick, so
the bursts of a run are as many as its ticks in that window. -/
theorem c4_tsunami_amended (waterHeight prevWaterY p : ℚ)
    (hp0 : 0 ≤ p) (hp1 : p ≤ 1) :
    (tsunamiTick waterHeight prevWaterY true p).waveScaleX = easeOutCubic p * 5 ∧
    (tsunamiTick waterHeight prevWaterY true p).waveScaleZ = easeOutCubic p * 5 ∧
    (tsunamiTick waterHeight prevWaterY true p).waveZ =
      -140 + easeOutQuad p * 180 ∧
    (p > 7/10 → (tsunamiTick waterHeight prevWaterY true p).waterY =
      lerp waterHeight (CONFIG_dam_height + 10) ((p - 7/10) / (3/10))) ∧
    (tsunamiTick waterHeight prevWaterY true 1).waterY = CONFIG_dam_height + 10 ∧
    ((tsunamiTick waterHeight prevWaterY true p).burst = true ↔
      8/10 < p ∧ p < 85/100) ∧
    (∀ ps : List ℚ, tsunamiBurstCount ps =
      (ps.filter fun q => decide ((8:ℚ)/10 < q) && decide (q < 85/100)).length) := by
  have hwindow : ∀ q : ℚ, tsunamiBurstTriggered q =
      (decide ((8:ℚ)/10 < q) && decide (q < 85/100)) := by
    intro q
    simp only [tsunamiBurstTriggered, tsunamiTick]
    rcases lt_or_le (8/10 : ℚ) q with h8 | h8
    · rcases lt_or_le q (85/100 : ℚ) with h85 | h85
      · rw [if_pos (show _ by exact ⟨⟨by linarith, by trivial⟩, h8, h85⟩)]
        simp [h8, h85]
      · rw [if_neg (by push_neg; intro _ _; linarith)]
        simp [not_lt.mpr h85]
    · rw [if_neg (by push_neg; intro _ h; exact absurd h (not_lt.mpr h8))]
      simp [not_lt.mpr h8]
  refine ⟨rfl, rfl, rfl, ?_, ?_, ?_, ?_⟩
  · intro h7
    simp [tsunamiTick, h7]
  · norm_num [tsunamiTick, lerp, CONFIG_dam_height]
  · rw [show (tsunamiTick waterHeight prevWaterY true p).burst =
        tsunamiBurstTriggered p from by simp [tsunamiBurstTriggered, tsunamiTick],
      hwindow p]
    simp
  · intro ps
    unfold tsunamiBurstCount
    congr 1
    exact List.filter_congr fun q _ => hwindow q

/-- Witness for C4's amended theorem at progress 0.9. -/
theorem c4_tsunami_amended_witness :
    (tsunamiTick 40 40 true (9/10)).waterY =
      lerp 40 (CONFIG_dam_height + 10) ((9/10 - 7/10) / (3/10)) ∧
    ((tsunamiTick 40 40 true (9/10)).burst = true ↔
      (8:ℚ)/10 < 9/10 ∧ (9:ℚ)/10 < 85/100) := by
  have h := c4_tsunami_amended 40 40 (9/10) (by norm_num) (by norm_num)
  exact ⟨h.2.2.2.1 (by norm_num), h.2.2.2.2.2.1⟩

/-- C6 counterexample — at level exactly 50 the strict `>` thresholds make
the UI slider path report stability "Moderate" (not "Low") and leave the
clay layer in its normal tier (not the orange high-stress tier). -/
theorem c6_level50_counterexample :
    (onWaterLevelChange 50 demoState).stability.category = .moderate ∧
    (onWaterLevelChange 50 demoState).stability.category ≠ .low ∧
    clayStressOf 50 = .normal ∧
    clayStressOf 50 ≠ .highStress ∧
    (onWaterLevelChange 50 demoState).clay.color = 0xA09077 := by
  norm_num [onWaterLevelChange, stabilityOf, clayStressOf, updateClayLayer,
    CONFIG_stability_critical, CONFIG_stability_veryLow, CONFIG_stability_low,
    CONFIG_stability_moderate, CONFIG_stability_good]
  exact ⟨by decide, by decide⟩

/-- C6 amended — Level-50 scenario: setting the level to exactly 50 via the
UI while idle yields stability category "moderate" (amber #ffc107) and the
clay layer's normal tier (default color, zero emissive intensity), and the
stability output and clay branch are a deterministic function of the level
alone, identical across any two prior states. -/
theorem c6_level50_amended (s1 s2 : SimState) :
    (onWaterLevelChange 50 s1).stability = (onWaterLevelChange 50 s2).stability ∧
    (onWaterLevelChange 50 s1).stability = ⟨.moderate, "#ffc107"⟩ ∧
    clayStressOf 50 = .normal ∧
    (onWaterLevelChange 50 s1).clay.color = 0xA09077 ∧
    (onWaterLevelChange 50 s1).clay.emissiveIntensity = 0 ∧
    (onWaterLevelChange 50 s1).clay.color = (onWaterLevelChange 50 s2).clay.color ∧
    (onWaterLevelChange 50 s1).clay.emissiveIntensity =
      (onWaterLevelChange 50 s2).clay.emissiveIntensity ∧
    (onWaterLevelChange 50 s1).waterMeshY = (onWaterLevelChange 50 s2).waterMeshY := by
  norm_num [onWaterLevelChange, stabilityOf, clayStressOf, updateClayLayer,
    CONFIG_stability_critical, CONFIG_stability_veryLow, CONFIG_stability_low,
    CONFIG_stability_moderate, CONFIG_stability_good]

/-- Witness for C6's amended theorem at two distinct concrete states. -/
theorem c6_level50_amended_witness :
    (onWaterLevelChange 50 demoState).stability =
      (onWaterLevelChange 50 (resetSimulation demoState)).stability ∧
    (onWaterLevelChange 50 demoState).stability = ⟨.moderate, "#ffc107"⟩ := by
  have h := c6_level50_amended demoState (resetSimulation demoState)
  exact ⟨h.1, h.2.1⟩

/-- C10 — Particle kinematics: every per-frame particle step adds the
velocity to the position and subtracts the gravity constant from the
vertical velocity (overtopping: `0.1·dt·60`; debris and splash: `0.1`);
overtopping particles whose updated `y` falls below −20 are teleported
back to the stored dam-crest height with a fresh random downward vertical
velocity `−2r−1 < 0` while the system's opacity is never modified; the
debris and splash burst opacities are `max 0 (0.8 − 0.8·progress)` and
`max 0 (0.7 − 0.7·progress)`, functions of the owning phase's progress
only (independent of the particles and their ages) and monotonically
non-increasing in progress. -/
theorem c10_particle_kinematics (damHeight dt : ℚ) :
    (∀ r (pt : Particle), ¬ pt.pos.y + pt.vel.y < -20 →
      overtoppingParticleStep damHeight dt r pt =
        { pos := ⟨pt.pos.x + pt.vel.x, pt.pos.y + pt.vel.y, pt.pos.z + pt.vel.z⟩
          vel := ⟨pt.vel.x, pt.vel.y - 1/10 * dt * 60, pt.vel.z⟩ }) ∧
    (∀ r (pt : Particle), pt.pos.y + pt.vel.y < -20 →
      (overtoppingParticleStep damHeight dt r pt).pos.y = damHeight ∧
      (overtoppingParticleStep damHeight dt r pt).vel.y = -r * 2 - 1 ∧
      (0 ≤ r → (overtoppingParticleStep damHeight dt r pt).vel.y < 0)) ∧
    (∀ rand sys,
      (updateOvertoppingParticles damHeight dt rand sys).opacity = sys.opacity) ∧
    (∀ (pt : Particle), ¬ pt.pos.y + pt.vel.y < 0 →
      debrisParticleStep pt =
        { pos := ⟨pt.pos.x + pt.vel.x, pt.pos.y + pt.vel.y, pt.pos.z + pt.vel.z⟩
          vel := ⟨pt.vel.x, pt.vel.y - 1/10, pt.vel.z⟩ }) ∧
    (∀ (pt : Particle), splashParticleStep pt =
      { pos := ⟨pt.pos.x + pt.vel.x, pt.pos.y + pt.vel.y, pt.pos.z + pt.vel.z⟩
        vel := ⟨pt.vel.x, pt.vel.y - 1/10, pt.vel.z⟩ }) ∧
    (∀ progress sys,
      (updateDebrisParticles progress sys).opacity =
        max 0 (8/10 - progress * (8/10))) ∧
    (∀ progress sys,
      (updateSplashParticles progress sys).opacity =
        max 0 (7/10 - progress * (7/10))) ∧
    (∀ progress sys1 sys2,
      (updateDebrisParticles progress sys1).opacity =
        (updateDebrisParticles progress sys2).opacity ∧
      (updateSplashParticles progress sys1).opacity =
        (updateSplashParticles progress sys2).opacity) ∧
    (∀ p q sys, p ≤ q →
      (updateDebrisParticles q sys).opacity ≤ (updateDebrisParticles p sys).opacity ∧
      (updateSplashParticles q sys).opacity ≤ (updateSplashParticles p sys).opacity) := by
  refine ⟨?_, ?_, fun rand sys => rfl, ?_, fun pt => rfl,
    fun progress sys => rfl, fun progress sys => rfl,
    fun progress sys1 sys2 => ⟨rfl, rfl⟩, ?_⟩
  · intro r pt hno
    simp only [overtoppingParticleStep]
    rw [if_neg hno]
  · intro r pt hfall
    simp only [overtoppingParticleStep]
    rw [if_pos hfall]
    refine ⟨rfl, rfl, fun hr => ?_⟩
    simp only
    linarith
  · intro pt hno
    simp only [debrisParticleStep]
    rw [if_neg hno]
  · intro p q sys hpq
    constructor <;> simp only [updateDebrisParticles, updateSplashParticles] <;>
      exact max_le_max le_rfl (by linarith)

/-- Witness for C10: a falling overtopping particle below the recycle bound
is teleported to the dam crest with a downward velocity, and a debris
particle above ground steps by its velocity. -/
theorem c10_particle_kinematics_witness :
    (overtoppingParticleStep 90 (16/1000) (1/2) ⟨⟨0, -30, 0⟩, ⟨0, -1, 0⟩⟩).pos.y = 90 ∧
    (overtoppingParticleStep 90 (16/1000) (1/2) ⟨⟨0, -30, 0⟩, ⟨0, -1, 0⟩⟩).vel.y < 0 ∧
    debrisParticleStep ⟨⟨0, 50, 0⟩, ⟨1, -2, 1⟩⟩ =
      { pos := ⟨0 + 1, 50 + -2, 0 + 1⟩, vel := ⟨1, -2 - 1/10, 1⟩ } := by
  have h := c10_particle_kinematics 90 (16/1000)
  refine ⟨(h.2.1 (1/2) ⟨⟨0, -30, 0⟩, ⟨0, -1, 0⟩⟩ (by norm_num)).1,
    (h.2.1 (1/2) ⟨⟨0, -30, 0⟩, ⟨0, -1, 0⟩⟩ (by norm_num)).2.2 (by norm_num),
    h.2.2.2.1 ⟨⟨0, 50, 0⟩, ⟨1, -2, 1⟩⟩ (by norm_num)⟩

/-- Witness for C9 at t = 1/4, and its exact endpoint facts. -/
theorem c9_easing_fidelity_witness :
    easeInOutBack (1/4) = spec_easeInOutBack (1/4) ∧
    easeInOutBack 0 = 0 ∧ easeInOutBack 1 = 1 :=
  ⟨(c9_easing_fidelity (1/4)).2.2.2.2.1,
   (c9_easing_fidelity (1/4)).2.2.2.2.2.2.2.2.2.2.2.2.2.2.2.1,
   (c9_easing_fidelity (1/4)).2.2.2.2.2.2.2.2.2.2.2.2.2.2.2.2⟩

end Vajont
